import Mathlib

/-!
Shallow embedding of the account-authentication and activation-code
lifecycle implemented by `party.py` of the `trytond-nereid` repository
(class `Address`, model `party.address`), together with the web handlers
`change_password`, `new_password`, `activate`, and the helpers
`create_act_code`, `_convert_values`, `authenticate`.

Randomness (`random.sample`) is modelled by threading an explicit RNG
function `Nat → Nat` giving the index drawn at each step; the external
SHA-1 digest (`hashlib.sha1(...).hexdigest()`) is modelled by an injective
executable stand-in, since the source only ever compares digests for
equality.  The Tryton ORM persistence layer is modelled by explicit
record updates; the `fields.Sha` column stores the digest of the value
written to it.
-/

namespace NereidParty

/-- Models the external `hashlib.sha1(pw).hexdigest()` call as an injective
executable function on strings.  The source uses the digest only as an
opaque value compared for equality, so any injective function is a
faithful (collision-free, idealised) model of it. -/
def sha1_hexdigest (s : String) : String := "sha1$" ++ s

/-- Models Python `string.ascii_lowercase`. -/
def ascii_lowercase : List Char := (List.range 26).map (fun i => Char.ofNat (97 + i))

/-- Models Python `string.ascii_uppercase`. -/
def ascii_uppercase : List Char := (List.range 26).map (fun i => Char.ofNat (65 + i))

/-- Models Python `string.ascii_letters` (and `string.letters` under the
default C locale): lowercase followed by uppercase. -/
def ascii_letters : List Char := ascii_lowercase ++ ascii_uppercase

/-- Models Python `string.digits`. -/
def string_digits : List Char := (List.range 10).map (fun i => Char.ofNat (48 + i))

/-- Models Python `random.sample(pop, k)`: draws `k` elements of `pop`
without replacement.  The RNG is modelled by `rng : Nat → Nat`; draw
number `step` removes the element at index `rng step % pop.length` from
the remaining population. -/
def random_sample (rng : Nat → Nat) : Nat → Nat → List Char → List Char
  | 0, _, _ => []
  | k + 1, step, pop =>
    if pop = [] then []
    else
      let i := rng step % pop.length
      pop.getD i 'a' :: random_sample rng k (step + 1) (pop.eraseIdx i)

theorem random_sample_length (rng : Nat → Nat) :
    ∀ (k step : Nat) (pop : List Char), k ≤ pop.length →
      (random_sample rng k step pop).length = k := by
  intro k
  induction k with
  | zero => intro step pop _; simp [random_sample]
  | succ n ih =>
    intro step pop h
    have hpop : ¬ pop = [] := by
      intro hnil
      subst hnil
      simp at h
    have hlen : 0 < pop.length := by
      cases pop with
      | nil => exact absurd rfl hpop
      | cons a l => simp
    have hlt : rng step % pop.length < pop.length := Nat.mod_lt _ hlen
    simp only [random_sample, if_neg hpop, List.length_cons]
    rw [ih (step + 1) (pop.eraseIdx (rng step % pop.length))]
    rw [List.length_eraseIdx_of_lt hlt]
    omega

/-- The fresh 8-character salt generated by `Address._convert_values`:
`''.join(random.sample(string.ascii_letters + string.digits, 8))`. -/
def fresh_salt (rng : Nat → Nat) : String :=
  String.mk (random_sample rng 8 0 (ascii_letters ++ string_digits))

theorem fresh_salt_length (rng : Nat → Nat) : (fresh_salt rng).length = 8 := by
  have h62 : (ascii_letters ++ string_digits).length = 62 := by decide
  have h : (random_sample rng 8 0 (ascii_letters ++ string_digits)).length = 8 :=
    random_sample_length rng 8 0 _ (by rw [h62]; omega)
  simpa [fresh_salt, String.length] using h

/-- A stored `party.address` record, restricted to the columns the
authentication and activation lifecycle reads or writes.  `password`
holds what the `fields.Sha` column stores (the hex digest), `none`
modelling an unset (falsy) column; `activation_code = none` models a
cleared (`False`) code. -/
structure AddressRec where
  id : Nat
  party : Nat
  email : Option Nat := none
  password : Option String := none
  salt : Option String := none
  activation_code : Option String := none
  deriving Repr, DecidableEq

/-- A `values` dictionary passed to `Address.create` / `Address.write`,
restricted to the relevant keys.  `none` means the key is absent;
for `activation_code`, `some none` models writing the falsy value
`False` (clearing the code). -/
structure Values where
  password : Option String := none
  salt : Option String := none
  activation_code : Option (Option String) := none
  deriving Repr, DecidableEq

/-- Models `Address._convert_values`: when the dictionary carries a
truthy (non-empty) password, generate a fresh random 8-character salt
from `string.ascii_letters + string.digits`, store it under the
`salt` key and append it to the password value. -/
def convert_values (rng : Nat → Nat) (values : Values) : Values :=
  match values.password with
  | some p =>
    if p = "" then values
    else
      { values with salt := some (fresh_salt rng),
                    password := some (p ++ fresh_salt rng) }
  | none => values

/-- Models the ORM applying a `values` dictionary to a stored record.
The `password` column is declared `fields.Sha`, so the value written to
it is persisted as its SHA-1 hex digest. -/
def apply_values (rec : AddressRec) (values : Values) : AddressRec :=
  let r1 := match values.password with
    | some p => { rec with password := some (sha1_hexdigest p) }
    | none => rec
  let r2 := match values.salt with
    | some s => { r1 with salt := some s }
    | none => r1
  match values.activation_code with
  | some c => { r2 with activation_code := c }
  | none => r2

/-- Models `Address.write`: update, but salt the password (via
`_convert_values`) before saving. -/
def write (rng : Nat → Nat) (rec : AddressRec) (values : Values) : AddressRec :=
  apply_values rec (convert_values rng values)

/-- Models `Address.create`: create, but salt the password (via
`_convert_values`) before saving. -/
def create (rng : Nat → Nat) (newId newParty : Nat) (values : Values) : AddressRec :=
  apply_values { id := newId, party := newParty } (convert_values rng values)

/-- Models `Address._activate`: `assert address.activation_code ==
activation_code` (exact, case-sensitive string equality; the stored
falsy `False` never equals a string), then clear the code with
`self.write(address.id, {'activation_code': False})`.  The failed
assertion (`AssertionError`) is modelled as `none`. -/
def activate_db (rng : Nat → Nat) (rec : AddressRec) (activation_code : String) :
    Option AddressRec :=
  if rec.activation_code = some activation_code then
    some (write rng rec { activation_code := some none })
  else none

/-- The per-visitor session, restricted to the two keys this core uses:
`user` (authenticated identity id) and `allow_new_password` (gate for
the bare new-password form).  `none` models an absent key. -/
structure Session where
  user : Option Nat := none
  allow_new_password : Option Bool := none
  deriving Repr, DecidableEq

/-- Redirect targets appearing in the handlers of `party.py`. -/
inductive Endpoint where
  | new_password_page
  | home
  | login
  deriving Repr, DecidableEq

/-- Result of the `Address.activate` web handler: the (possibly updated)
record, the resulting session, the flashed messages, and the redirect
target. -/
structure ActivateResponse where
  record : AddressRec
  session : Session
  flashes : List String
  redirect : Endpoint
  deriving Repr, DecidableEq

/-- Models the `Address.activate` web handler: try `_activate`; on
success flash, log the user in (`session['user'] = address_id`), then
dispatch on the length of the supplied code (12: set
`allow_new_password` and redirect to `new_password`; 16: redirect home;
anything else falls through to the final login redirect).  On
`AssertionError` flash `Invalid Activation Code` and redirect to login
with the record and session untouched. -/
def activate (rng : Nat → Nat) (rec : AddressRec) (sess : Session)
    (activation_code : String) : ActivateResponse :=
  match activate_db rng rec activation_code with
  | some rec1 =>
    let sess1 : Session := { sess with user := some rec.id }
    if activation_code.length = 12 then
      { record := rec1,
        session := { sess1 with allow_new_password := some true },
        flashes := ["Your account has been activated"],
        redirect := .new_password_page }
    else if activation_code.length = 16 then
      { record := rec1, session := sess1,
        flashes := ["Your account has been activated"],
        redirect := .home }
    else
      { record := rec1, session := sess1,
        flashes := ["Your account has been activated"],
        redirect := .login }
  | none =>
    { record := rec, session := sess,
      flashes := ["Invalid Activation Code"], redirect := .login }

/-- Models `Address.create_act_code`: sample a code of `length`
characters from `string.letters + string.digits`, search the store for
an existing record with that activation code, and on collision recurse.
The recursive call in the source is `self.create_act_code(address)` with
NO `length` argument, so every retry uses the default `length=16`.
Randomness is a family `rngs : Nat → Nat → Nat` giving the RNG of each
attempt; the unbounded Python recursion is given explicit `fuel`, with
`none` modelling non-termination. -/
def create_act_code (rngs : Nat → Nat → Nat) (existing : List (Option String))
    (rec : AddressRec) : Nat → Nat → Nat → Option AddressRec
  | 0, _, _ => none
  | fuel + 1, attempt, length =>
    let act_code :=
      String.mk (random_sample (rngs attempt) length 0 (ascii_letters ++ string_digits))
    if existing.contains (some act_code) then
      create_act_code rngs existing rec fuel (attempt + 1) 16
    else
      some (write (rngs attempt) rec { activation_code := some (some act_code) })

/-- Models the code-issuing step of `Address.reset_account`:
`self.create_act_code(address[0], length=12)`. -/
def reset_account_issue (rngs : Nat → Nat → Nat) (existing : List (Option String))
    (rec : AddressRec) (fuel : Nat) : Option AddressRec :=
  create_act_code rngs existing rec fuel 0 12

/-- The whitespace characters Python `str.strip()` removes by default. -/
def is_python_space (c : Char) : Bool :=
  c == ' ' || c == '\t' || c == '\n' || c == '\r' || c == '\x0b' || c == '\x0c'

/-- Models Python `str.strip()` as used by `validators.Required`:
remove leading and trailing whitespace. -/
def strip (s : String) : String :=
  String.mk (((s.data.dropWhile is_python_space).reverse.dropWhile is_python_space).reverse)

/-- Models `NewPasswordForm.validate()` (also the validation of
`ChangePasswordForm`, which adds the `old_password` field with no
validators): `password` must satisfy `validators.Required`, which
rejects empty data and also whitespace-only strings (it checks
`field.data.strip()`), and must equal `confirm`
(`validators.EqualTo`); `confirm` itself carries no validators. -/
def form_validates (password confirm : String) : Bool :=
  !(strip password == "") && password == confirm

/-- Outcome of the password-form web handlers. -/
inductive Response where
  | login_redirect
  | render_form
  | http_403
  | password_changed
  deriving Repr, DecidableEq

/-- Result of a password-form web handler: the (possibly updated)
record, the resulting session, and the HTTP outcome. -/
structure HandlerResult where
  record : AddressRec
  session : Session
  response : Response
  deriving Repr, DecidableEq

/-- Models the `Address.new_password` web handler (wrapped in
`login_required`): on a validated POST, abort with 403 unless
`session.get('allow_new_password', False)` is truthy; otherwise write
the new password, pop `allow_new_password` and `user` from the session,
and redirect to login.  Any other request renders the form. -/
def new_password (rng : Nat → Nat) (rec : AddressRec) (sess : Session)
    (is_post : Bool) (password confirm : String) : HandlerResult :=
  if sess.user = none then
    { record := rec, session := sess, response := .login_redirect }
  else if is_post && form_validates password confirm then
    if sess.allow_new_password.getD false = false then
      { record := rec, session := sess, response := .http_403 }
    else
      { record := write rng rec { password := some password },
        session := { sess with allow_new_password := none, user := none },
        response := .password_changed }
  else
    { record := rec, session := sess, response := .render_form }

/-- Models the `Address.change_password` web handler (wrapped in
`login_required`): on a validated POST, write the new password, pop
`user` from the session and redirect to login.  The `old_password`
field collected by `ChangePasswordForm` is never read by the handler
body, so it is an unused parameter here exactly as in the source. -/
def change_password (rng : Nat → Nat) (rec : AddressRec) (sess : Session)
    (is_post : Bool) (password confirm old_password : String) : HandlerResult :=
  if sess.user = none then
    { record := rec, session := sess, response := .login_redirect }
  else if is_post && form_validates password confirm then
    { record := write rng rec { password := some password },
      session := { sess with user := none },
      response := .password_changed }
  else
    { record := rec, session := sess, response := .render_form }

/-- A `party.contact_mechanism` record, restricted to the columns the
authentication lookup filters on; `company` denormalises the owning
party's company (`party.company` in the search domain). -/
structure ContactMech where
  id : Nat
  value : String
  mech_type : String
  party : Nat
  company : Nat
  deriving Repr, DecidableEq

/-- The store state `Address.authenticate` reads: the website company,
the guest user's party (`current_app.guest_user`), all contact
mechanisms and all address records. -/
structure Env where
  company : Nat
  guest_party : Nat
  contacts : List ContactMech
  addresses : List AddressRec
  deriving Repr, DecidableEq

/-- The contact search of `Address.authenticate`:
`[('value','=',email),('type','=','email'),
('party.company','=',company),('party','!=',guest.party)]`. -/
def contact_lookup (env : Env) (email : String) : List ContactMech :=
  env.contacts.filter (fun c =>
    c.value == email && c.mech_type == "email" &&
      c.company == env.company && !(c.party == env.guest_party))

/-- The address search of `Address.authenticate`:
`[('email','=',contact[0])]`. -/
def address_lookup (env : Env) (contact_id : Nat) : List AddressRec :=
  env.addresses.filter (fun a => a.email == some contact_id)

/-- The guard `address.activation_code and len(address.activation_code)
== 16` of `Address.authenticate`: a truthy (non-empty) stored code of
length 16 marks a not-yet-activated registration. -/
def pending_registration (rec : AddressRec) : Bool :=
  match rec.activation_code with
  | some code => !(code == "") && code.length == 16
  | none => false

/-- The three possible returns of `Address.authenticate`: `None`
(no match / wrong password), `False` (account not yet activated,
flashed as such to avoid the invalid-credentials message), or the
matched address record. -/
inductive AuthResult where
  | null
  | pending_activation
  | success (address : AddressRec)
  deriving Repr, DecidableEq

/-- Models `Address.authenticate`: look the email up among non-guest
contact mechanisms of the website company; resolve it to exactly one
address (zero or several give `None`); reject unactivated registrations
with the distinct `False` result; otherwise compare
`sha1(password + (salt or '')).hexdigest()` with the stored digest. -/
def authenticate (env : Env) (email password : String) : AuthResult :=
  match contact_lookup env email with
  | [] => .null
  | c :: _ =>
    match address_lookup env c.id with
    | [address] =>
      if pending_registration address then .pending_activation
      else
        if some (sha1_hexdigest (password ++ address.salt.getD "")) = address.password
        then .success address
        else .null
    | _ => .null

theorem sha1_hexdigest_injective {s t : String} (h : sha1_hexdigest s = sha1_hexdigest t) :
    s = t := by
  unfold sha1_hexdigest at h
  have hd : ("sha1$" : String).data ++ s.data = ("sha1$" : String).data ++ t.data := by
    rw [← String.data_append, ← String.data_append]
    exact congrArg String.data h
  have hst : s.data = t.data := List.append_cancel_left hd
  cases s
  cases t
  exact congrArg String.mk hst

theorem string_append_cancel_right {p q s : String} (h : p ++ s = q ++ s) : p = q := by
  have hd : p.data ++ s.data = q.data ++ s.data := by
    rw [← String.data_append, ← String.data_append, h]
  have hpq : p.data = q.data := List.append_cancel_right hd
  cases p
  cases q
  exact congrArg String.mk hpq

theorem write_set_password (rng : Nat → Nat) (rec : AddressRec) (p : String) (hp : p ≠ "") :
    write rng rec { password := some p } =
      { rec with salt := some (fresh_salt rng),
                 password := some (sha1_hexdigest (p ++ fresh_salt rng)) } := by
  simp [write, convert_values, apply_values, hp]

theorem write_clear_code (rng : Nat → Nat) (rec : AddressRec) :
    write rng rec { activation_code := some none } =
      { rec with activation_code := none } := by
  simp [write, convert_values, apply_values]

theorem activate_success_response (rng : Nat → Nat) (rec : AddressRec) (sess : Session)
    (code : String) (h : rec.activation_code = some code) :
    activate rng rec sess code =
      { record := { rec with activation_code := none },
        session :=
          if code.length = 12 then
            { sess with user := some rec.id, allow_new_password := some true }
          else { sess with user := some rec.id },
        flashes := ["Your account has been activated"],
        redirect :=
          if code.length = 12 then .new_password_page
          else if code.length = 16 then .home else .login } := by
  simp only [activate, activate_db, if_pos h, write_clear_code]
  by_cases h12 : code.length = 12
  · simp [h12]
  · by_cases h16 : code.length = 16 <;> simp [h12, h16]

/-- C4: a supplied code that is not exactly equal (case-sensitively) to the
stored activation code makes `activate` fail with the invalid-code flash
and a login redirect, leaving the stored record (activation code,
password and salt) and the session untouched. -/
theorem C4_invalid_code_rejected (rng : Nat → Nat) (rec : AddressRec) (sess : Session)
    (code : String) (h : rec.activation_code ≠ some code) :
    activate rng rec sess code =
      { record := rec, session := sess,
        flashes := ["Invalid Activation Code"], redirect := .login } := by
  simp [activate, activate_db, h]

theorem C4_witness :
    ({ id := 1, party := 1, activation_code := some "ABCDEFGHIJKL" } : AddressRec).activation_code
        ≠ some "abcdefghijkl" ∧
    activate (fun _ => 0)
        { id := 1, party := 1, activation_code := some "ABCDEFGHIJKL" } {} "abcdefghijkl" =
      { record := { id := 1, party := 1, activation_code := some "ABCDEFGHIJKL" },
        session := {}, flashes := ["Invalid Activation Code"], redirect := .login } :=
  ⟨by decide, C4_invalid_code_rejected (fun _ => 0) _ {} "abcdefghijkl" (by decide)⟩

/-- C5: activation codes are one-time.  A successful `activate` clears the
stored code, and a second `activate` with the very same code fails with
the invalid-code flash, leaving the record untouched. -/
theorem C5_codes_are_one_time (rng1 rng2 : Nat → Nat) (rec : AddressRec)
    (sess1 sess2 : Session) (code : String) (h : rec.activation_code = some code) :
    (activate rng1 rec sess1 code).record.activation_code = none ∧
    activate rng2 (activate rng1 rec sess1 code).record sess2 code =
      { record := (activate rng1 rec sess1 code).record, session := sess2,
        flashes := ["Invalid Activation Code"], redirect := .login } := by
  have hrec : (activate rng1 rec sess1 code).record = { rec with activation_code := none } := by
    rw [activate_success_response rng1 rec sess1 code h]
  rw [hrec]
  exact ⟨rfl, by simp [activate, activate_db]⟩

theorem C5_witness :
    (activate (fun _ => 0) { id := 4, party := 4, activation_code := some "QRSTUVWXYZabcdef" }
        {} "QRSTUVWXYZabcdef").record.activation_code = none ∧
    activate (fun _ => 1)
        (activate (fun _ => 0) { id := 4, party := 4, activation_code := some "QRSTUVWXYZabcdef" }
          {} "QRSTUVWXYZabcdef").record
        { user := some 4 } "QRSTUVWXYZabcdef" =
      { record := (activate (fun _ => 0)
          { id := 4, party := 4, activation_code := some "QRSTUVWXYZabcdef" }
          {} "QRSTUVWXYZabcdef").record,
        session := { user := some 4 },
        flashes := ["Invalid Activation Code"], redirect := .login } :=
  C5_codes_are_one_time (fun _ => 0) (fun _ => 1) _ {} { user := some 4 }
    "QRSTUVWXYZabcdef" rfl

/-- C6: on a successful activation the purpose is decided by the length of
the consumed code: a 12-character code sets `allow_new_password` in the
session and redirects to the new-password step, while a 16-character
code yields a normal authenticated session (only `user` is set) and a
redirect to the site home. -/
theorem C6_length_decides_purpose (rng : Nat → Nat) (rec : AddressRec) (sess : Session)
    (code : String) (h : rec.activation_code = some code) :
    (code.length = 12 →
      activate rng rec sess code =
        { record := { rec with activation_code := none },
          session := { sess with user := some rec.id, allow_new_password := some true },
          flashes := ["Your account has been activated"],
          redirect := .new_password_page }) ∧
    (code.length = 16 →
      activate rng rec sess code =
        { record := { rec with activation_code := none },
          session := { sess with user := some rec.id },
          flashes := ["Your account has been activated"],
          redirect := .home }) := by
  rw [activate_success_response rng rec sess code h]
  constructor
  · intro h12
    simp [h12]
  · intro h16
    have h12 : ¬ code.length = 12 := by omega
    simp [h12, h16]

theorem C6_witness :
    activate (fun _ => 0) { id := 5, party := 5, activation_code := some "resetRESET12" }
        {} "resetRESET12" =
      { record := { id := 5, party := 5 },
        session := { user := some 5, allow_new_password := some true },
        flashes := ["Your account has been activated"],
        redirect := .new_password_page } ∧
    activate (fun _ => 0) { id := 6, party := 6, activation_code := some "registerREGISTER" }
        {} "registerREGISTER" =
      { record := { id := 6, party := 6 },
        session := { user := some 6 },
        flashes := ["Your account has been activated"],
        redirect := .home } :=
  ⟨(C6_length_decides_purpose (fun _ => 0) _ {} "resetRESET12" rfl).1 (by decide),
   (C6_length_decides_purpose (fun _ => 0) _ {} "registerREGISTER" rfl).2 (by decide)⟩

/-- C10: every successful activation sets `session['user']` to the
credential id before the length dispatch, so a valid 12-character
password-reset code alone yields a fully authenticated session (user
logged in, not merely the `allow_new_password` gate). -/
theorem C10_activation_logs_in (rng : Nat → Nat) (rec : AddressRec) (sess : Session)
    (code : String) (h : rec.activation_code = some code) :
    (activate rng rec sess code).session.user = some rec.id ∧
    (code.length = 12 →
      (activate rng rec sess code).session =
        { sess with user := some rec.id, allow_new_password := some true }) := by
  rw [activate_success_response rng rec sess code h]
  constructor
  · by_cases h12 : code.length = 12 <;> simp [h12]
  · intro h12
    simp [h12]

theorem C10_witness :
    (activate (fun _ => 0) { id := 9, party := 9, activation_code := some "abcXYZ123456" }
        {} "abcXYZ123456").session.user = some 9 ∧
    (activate (fun _ => 0) { id := 9, party := 9, activation_code := some "abcXYZ123456" }
        {} "abcXYZ123456").session =
      { user := some 9, allow_new_password := some true } :=
  ⟨(C10_activation_logs_in (fun _ => 0) _ {} "abcXYZ123456" rfl).1,
   (C10_activation_logs_in (fun _ => 0) _ {} "abcXYZ123456" rfl).2 (by decide)⟩

/-- C7: every `create` or `write` call carrying a non-empty password goes
through the salting path of `_convert_values`: a fresh 8-character salt
is generated and stored, and the persisted password column holds the
digest of the plaintext concatenated with that salt. -/
theorem C7_salting_path_never_bypassed (rng : Nat → Nat) (rec : AddressRec)
    (newId newParty : Nat) (values : Values) (p : String)
    (hp : values.password = some p) (hne : p ≠ "") :
    (fresh_salt rng).length = 8 ∧
    (write rng rec values).salt = some (fresh_salt rng) ∧
    (write rng rec values).password = some (sha1_hexdigest (p ++ fresh_salt rng)) ∧
    (create rng newId newParty values).salt = some (fresh_salt rng) ∧
    (create rng newId newParty values).password =
      some (sha1_hexdigest (p ++ fresh_salt rng)) := by
  refine ⟨fresh_salt_length rng, ?_, ?_, ?_, ?_⟩ <;>
    cases hac : values.activation_code <;>
      simp [write, create, convert_values, apply_values, hp, hne, hac]

theorem C7_witness :
    (({ password := some "secret" } : Values).password = some "secret") ∧
    (fresh_salt (fun _ => 0)).length = 8 ∧
    (write (fun _ => 0) { id := 8, party := 8 } { password := some "secret" }).salt
      = some (fresh_salt (fun _ => 0)) ∧
    (write (fun _ => 0) { id := 8, party := 8 } { password := some "secret" }).password
      = some (sha1_hexdigest ("secret" ++ fresh_salt (fun _ => 0))) :=
  have h := C7_salting_path_never_bypassed (fun _ => 0) { id := 8, party := 8 } 8 8
    { password := some "secret" } "secret" rfl (by decide)
  ⟨rfl, h.1, h.2.1, h.2.2.1⟩

/-- C2: a credential whose stored activation code is present with length
16 is reported by `authenticate` as pending activation (the distinct
`False` result) for every supplied password, never as a success and
never as the plain `None` failure. -/
theorem C2_sixteen_char_code_pending (env : Env) (email : String)
    (c : ContactMech) (rest : List ContactMech) (address : AddressRec)
    (code : String) (hc : contact_lookup env email = c :: rest)
    (ha : address_lookup env c.id = [address])
    (hcode : address.activation_code = some code) (hlen : code.length = 16) :
    ∀ password : String, authenticate env email password = .pending_activation := by
  intro password
  have hne : code ≠ "" := by
    intro hnil
    rw [hnil] at hlen
    simp at hlen
  have hpend : pending_registration address = true := by
    simp [pending_registration, hcode, hlen, hne]
  simp [authenticate, hc, ha, hpend]

theorem C2_witness :
    authenticate
      { company := 1, guest_party := 0,
        contacts := [{ id := 10, value := "a@b.com", mech_type := "email",
                       party := 2, company := 1 }],
        addresses := [{ id := 1, party := 2, email := some 10,
                        activation_code := some "ABCDEFGHIJKLMNOP" }] }
      "a@b.com" "whatever-password" = .pending_activation :=
  C2_sixteen_char_code_pending _ "a@b.com"
    { id := 10, value := "a@b.com", mech_type := "email", party := 2, company := 1 } []
    { id := 1, party := 2, email := some 10, activation_code := some "ABCDEFGHIJKLMNOP" }
    "ABCDEFGHIJKLMNOP" (by decide) (by decide) rfl (by decide) "whatever-password"

/-- C1 (amended): for a credential whose email resolves uniquely to it
among non-guest contacts and whose stored activation code is not a
pending 16-character registration code, setting a non-empty password
via `write` and then authenticating with the same plaintext returns
that credential, while any other plaintext returns `None`. -/
theorem C1_set_password_then_authenticate (rng : Nat → Nat) (env : Env)
    (email : String) (c : ContactMech) (rest : List ContactMech)
    (rec : AddressRec) (p : String) (hp : p ≠ "")
    (hc : contact_lookup env email = c :: rest)
    (ha : address_lookup env c.id = [write rng rec { password := some p }])
    (hpend : pending_registration (write rng rec { password := some p }) = false) :
    authenticate env email p = .success (write rng rec { password := some p }) ∧
    ∀ q : String, q ≠ p → authenticate env email q = .null := by
  have hw := write_set_password rng rec p hp
  have hsalt : (write rng rec { password := some p }).salt = some (fresh_salt rng) := by
    rw [hw]
  have hpw : (write rng rec { password := some p }).password =
      some (sha1_hexdigest (p ++ fresh_salt rng)) := by
    rw [hw]
  constructor
  · simp [authenticate, hc, ha, hpend, hsalt, hpw]
  · intro q hq
    have hneq : sha1_hexdigest (q ++ fresh_salt rng) ≠
        sha1_hexdigest (p ++ fresh_salt rng) := by
      intro hd
      exact hq (string_append_cancel_right (sha1_hexdigest_injective hd))
    simp [authenticate, hc, ha, hpend, hsalt, hpw, hneq]

theorem C1_witness :
    authenticate
      { company := 1, guest_party := 0,
        contacts := [{ id := 11, value := "u@v.com", mech_type := "email",
                       party := 3, company := 1 }],
        addresses := [write (fun _ => 0)
          { id := 2, party := 3, email := some 11 } { password := some "secret" }] }
      "u@v.com" "secret" =
      .success (write (fun _ => 0)
        { id := 2, party := 3, email := some 11 } { password := some "secret" }) ∧
    authenticate
      { company := 1, guest_party := 0,
        contacts := [{ id := 11, value := "u@v.com", mech_type := "email",
                       party := 3, company := 1 }],
        addresses := [write (fun _ => 0)
          { id := 2, party := 3, email := some 11 } { password := some "secret" }] }
      "u@v.com" "wrong" = .null :=
  have h := C1_set_password_then_authenticate (fun _ => 0)
    { company := 1, guest_party := 0,
      contacts := [{ id := 11, value := "u@v.com", mech_type := "email",
                     party := 3, company := 1 }],
      addresses := [write (fun _ => 0)
        { id := 2, party := 3, email := some 11 } { password := some "secret" }] }
    "u@v.com"
    { id := 11, value := "u@v.com", mech_type := "email", party := 3, company := 1 } []
    { id := 2, party := 3, email := some 11 } "secret" (by decide)
    (by decide) (by decide) (by decide)
  ⟨h.1, h.2 "wrong" (by decide)⟩

/-- C1 counterexample: the claim as stated fails for a credential whose
stored activation code is a 16-character registration code; after
setting the password, authenticating with the very same plaintext
returns the pending-activation result, not the credential. -/
theorem C1_counterexample :
    authenticate
      { company := 1, guest_party := 0,
        contacts := [{ id := 10, value := "a@b.com", mech_type := "email",
                       party := 2, company := 1 }],
        addresses := [write (fun _ => 0)
          { id := 1, party := 2, email := some 10,
            activation_code := some "ABCDEFGHIJKLMNOP" }
          { password := some "secret" }] }
      "a@b.com" "secret" = .pending_activation ∧
    AuthResult.pending_activation ≠
      .success (write (fun _ => 0)
        { id := 1, party := 2, email := some 10,
          activation_code := some "ABCDEFGHIJKLMNOP" }
        { password := some "secret" }) := by
  constructor
  · decide
  · decide

/-- C8 (amended): without a truthy `allow_new_password` in the session,
`new_password` never changes the credential, and any request that would
otherwise change it (a logged-in POST with a valid form) is rejected
with 403; a successful change removes `allow_new_password` from the
session, so the gate cannot be reused. -/
theorem C8_new_password_gate (rng : Nat → Nat) (rec : AddressRec) (is_post : Bool)
    (password confirm : String) :
    (∀ sess : Session, sess.allow_new_password.getD false = false →
      (new_password rng rec sess is_post password confirm).record = rec ∧
      (is_post = true → form_validates password confirm = true → sess.user ≠ none →
        (new_password rng rec sess is_post password confirm).response = .http_403)) ∧
    (∀ sess : Session,
      (new_password rng rec sess is_post password confirm).response = .password_changed →
      (new_password rng rec sess is_post password confirm).session.allow_new_password
        = none) := by
  constructor
  · intro sess hgate
    constructor
    · by_cases hu : sess.user = none
      · simp [new_password, hu]
      · by_cases hf : (is_post && form_validates password confirm) = true
        · simp [new_password, hu, hf, hgate]
        · simp [new_password, hu, hf]
    · intro hpost hform huser
      simp [new_password, huser, hpost, hform, hgate]
  · intro sess hresp
    by_cases hu : sess.user = none
    · simp [new_password, hu] at hresp
    · by_cases hf : (is_post && form_validates password confirm) = true
      · by_cases hg : sess.allow_new_password.getD false = false
        · simp [new_password, hu, hf, hg] at hresp
        · simp [new_password, hu, hf, hg]
      · simp [new_password, hu, hf] at hresp

theorem C8_witness :
    (new_password (fun _ => 0) { id := 1, party := 1 } { user := some 3 }
        true "npw" "npw").record = { id := 1, party := 1 } ∧
    (new_password (fun _ => 0) { id := 1, party := 1 } { user := some 3 }
        true "npw" "npw").response = .http_403 :=
  have h := C8_new_password_gate (fun _ => 0) { id := 1, party := 1 } true "npw" "npw"
  ⟨(h.1 { user := some 3 } rfl).1,
   (h.1 { user := some 3 } rfl).2 rfl (by decide) (by decide)⟩

/-- C8 counterexample: the claim as stated fails for a logged-in GET
request without the gate: `new_password` renders the form (a 200
response), it does not reject the request with 403. -/
theorem C8_counterexample :
    ({ user := some 7 } : Session).allow_new_password.getD false = false ∧
    new_password (fun _ => 0) { id := 1, party := 1 } { user := some 7 }
        false "npw" "npw" =
      { record := { id := 1, party := 1 }, session := { user := some 7 },
        response := .render_form } ∧
    Response.render_form ≠ .http_403 := by
  refine ⟨rfl, by decide, by decide⟩

/-- C9 (amended): for every logged-in POST whose new password and
confirmation match and contain at least one non-whitespace character
(so that `validators.Required` accepts them), `change_password`
updates the stored password no matter what was submitted as
`old_password` (the result is literally independent of that field,
which is collected by the form but never compared to the stored
hash). -/
theorem C9_old_password_never_checked (rng : Nat → Nat) (rec : AddressRec)
    (sess : Session) (password confirm o1 o2 : String)
    (huser : sess.user ≠ none) (hne : strip password ≠ "") (heq : password = confirm) :
    change_password rng rec sess true password confirm o1 =
      change_password rng rec sess true password confirm o2 ∧
    change_password rng rec sess true password confirm o1 =
      { record := write rng rec { password := some password },
        session := { sess with user := none },
        response := .password_changed } := by
  have hform : form_validates password confirm = true := by
    subst heq
    simp [form_validates, hne]
  exact ⟨rfl, by simp [change_password, huser, hform]⟩

theorem C9_witness :
    change_password (fun _ => 0) { id := 2, party := 2 } { user := some 2 }
        true "newpw" "newpw" "totally-wrong-old-password" =
      change_password (fun _ => 0) { id := 2, party := 2 } { user := some 2 }
        true "newpw" "newpw" "" ∧
    change_password (fun _ => 0) { id := 2, party := 2 } { user := some 2 }
        true "newpw" "newpw" "totally-wrong-old-password" =
      { record := write (fun _ => 0) { id := 2, party := 2 } { password := some "newpw" },
        session := { user := none }, response := .password_changed } :=
  C9_old_password_never_checked (fun _ => 0) { id := 2, party := 2 } { user := some 2 }
    "newpw" "newpw" "totally-wrong-old-password" "" (by decide) (by decide) rfl

/-- C9 counterexample: the claim as stated fails when the matching new
password and confirmation are whitespace-only (a single space here) or
empty: `validators.Required` strips the data and makes the form
invalid, so a logged-in POST leaves the password unchanged. -/
theorem C9_counterexample :
    change_password (fun _ => 0) { id := 2, party := 2 } { user := some 2 }
        true " " " " "oldpw" =
      { record := { id := 2, party := 2 }, session := { user := some 2 },
        response := .render_form } ∧
    change_password (fun _ => 0) { id := 2, party := 2 } { user := some 2 }
        true "" "" "oldpw" =
      { record := { id := 2, party := 2 }, session := { user := some 2 },
        response := .render_form } ∧
    Response.render_form ≠ .password_changed := by
  refine ⟨by decide, by decide, by decide⟩

/-- C3: evaluation of `create_act_code` at the failing input.  Without a
collision a length-12 request persists a 12-character code, but when
the first candidate (here `abcdefghijkl` under an all-zeros RNG)
already exists, the retry — `self.create_act_code(address)` with no
`length` argument — falls back to the default length 16, so the
password-reset request ends with a 16-character code stored. -/
theorem C3_collision_retry_loses_length :
    ((reset_account_issue (fun _ _ => 0) [] { id := 3, party := 3 } 2).map
        (fun r => r.activation_code.map String.length)) = some (some 12) ∧
    ((reset_account_issue (fun _ _ => 0) [some "abcdefghijkl"] { id := 3, party := 3 } 2).map
        (fun r => r.activation_code.map String.length)) = some (some 16) ∧
    (reset_account_issue (fun _ _ => 0) [some "abcdefghijkl"]
        { id := 3, party := 3 } 2).map (fun r => r.activation_code) =
      some (some "abcdefghijklmnop") := by
  refine ⟨by decide, by decide, by decide⟩

end NereidParty
